import Mathlib

/-!
Verification development for the question-understanding and dialogue-routing
engine of the quality-inspection QA repository.

The Python sources embedded here are
`backend/enhanced_smart_analyzer.py` (class `EnhancedSmartAnalyzer`) and
`backend/intelligent_data_analyzer.py` (class `IntelligentDataAnalyzer`).
Pure routing, classification and reference-resolution logic is translated
function by function; numeric aggregation handlers that only produce
narrative text are kept at the collaborator boundary exactly where the code
keeps them (they receive normalized parameters and return a string).

Python-specific semantics that matter for faithfulness are modelled
explicitly and noted at the definition site:
  * `kw in s` on strings is raw substring containment;
  * `dict.get(k, d)` returns the stored value when the key is present,
    even when that stored value is `None`;
  * `xs[:None]` is the whole list, `xs[:n]` is `take n`;
  * `x or d` on an integer-or-None value yields `d` for both `None` and `0`;
  * `sorted(..., reverse=True)` is a stable descending sort;
  * `max(dict, key=dict.get)` returns the first key attaining the maximum,
    in insertion order;
  * `re.search` returns the leftmost match, with greedy backtracking.
-/

namespace QA

/-! ## Basic string utilities (Python `str` semantics) -/

/-- ASCII lower-casing of one character, as Python `str.lower` acts on the
ASCII questions considered here. -/
def lowerChar (c : Char) : Char :=
  if 'A' ≤ c ∧ c ≤ 'Z' then Char.ofNat (c.toNat + 32) else c

/-- Python `s.lower()`. -/
def lowerStr (s : String) : String :=
  String.mk (s.toList.map lowerChar)

/-- Python `\s` (ASCII whitespace as used by `re` on these inputs). -/
def isWs (c : Char) : Bool :=
  c = ' ' || c = '\t' || c = '\n' || c = '\r' || c = Char.ofNat 11 || c = Char.ofNat 12

/-- Python `s.strip()`. -/
def pyStrip (s : String) : String :=
  String.mk (((s.toList.dropWhile isWs).reverse.dropWhile isWs).reverse)

/-- `needle` occurs as a contiguous run inside `hay` (list form). -/
def listIsSub (n : List Char) : List Char → Bool
  | [] => n.isPrefixOf []
  | c :: t => n.isPrefixOf (c :: t) || listIsSub n t

/-- Python `needle in hay` on strings: raw substring containment. -/
def isSub (needle hay : String) : Bool :=
  listIsSub needle.toList hay.toList

/-- Numeric value of a digit string (Python `int` on a `\d+` match). -/
def strToNat (s : String) : Nat :=
  s.toList.foldl (fun a c => a * 10 + (c.toNat - 48)) 0

/-- Maximal runs of decimal digits, left to right (Python
`re.findall(r'\d+', s)`); accumulator form keeps the recursion structural. -/
def digitRunsAux : List Char → List Char → List String
  | [], acc => if acc.isEmpty then [] else [String.mk acc.reverse]
  | c :: t, acc =>
    if c.isDigit then digitRunsAux t (c :: acc)
    else if acc.isEmpty then digitRunsAux t []
    else String.mk acc.reverse :: digitRunsAux t []

def digitRuns (s : String) : List String :=
  digitRunsAux s.toList []

/-! ## A small backtracking matcher

The Python sources use `re.search` with a handful of fixed patterns.  Each
pattern is a plain sequence of literals, literal alternations, and greedy
character-class repetitions, so it is represented as a `List RItem` and run by
a backtracking matcher whose preference order is Python's: leftmost starting
position; at a position, alternatives in written order and greedy (longest
first) repetition, with full backtracking into the rest of the pattern. -/

/-- Character classes appearing in the sources' patterns. -/
inductive RCls where
  | ws        -- `\s`
  | digit     -- `\d`
  | upper     -- `[A-Z]`
  | dot       -- `.` (anything but a newline)
  | entcls    -- `[A-Z\s\d-]`
deriving DecidableEq

def cmatch : RCls → Char → Bool
  | .ws, c => isWs c
  | .digit, c => c.isDigit
  | .upper, c => 'A' ≤ c && c ≤ 'Z'
  | .dot, c => c ≠ '\n'
  | .entcls, c => ('A' ≤ c && c ≤ 'Z') || isWs c || c.isDigit || c = '-'

/-- One element of a pattern:
`lit s` is a literal; `alts ss` is `(s1|s2|...)` over literals;
`reps c lo hi` is `c{lo,}` (or `c{lo,hi}` when `hi` is given);
`grp p c lo` is the optional group `(p c{lo,})?`. -/
inductive RItem where
  | lit (s : String)
  | alts (ss : List String)
  | reps (c : RCls) (lo : Nat) (hi : Option Nat)
  | grp (pre : String) (c : RCls) (lo : Nat)
deriving DecidableEq

/-- Does the pattern match a prefix of `cs` (with arbitrary backtracking)?
This is the boolean used for `re.search(p, s) is not None`. -/
def matchB : List RItem → List Char → Bool
  | [], _ => true
  | .lit s :: rest, cs =>
    s.toList.isPrefixOf cs && matchB rest (cs.drop s.length)
  | .alts ss :: rest, cs =>
    ss.any (fun a => a.toList.isPrefixOf cs && matchB rest (cs.drop a.length))
  | .reps c lo hi :: rest, cs =>
    (List.range (cs.length + 1)).any (fun n =>
      decide (lo ≤ n) &&
      (match hi with | none => true | some h => decide (n ≤ h)) &&
      (cs.take n).all (cmatch c) && matchB rest (cs.drop n))
  | .grp p c lo :: rest, cs =>
    matchB rest cs ||
    (p.toList.isPrefixOf cs &&
      (let cs' := cs.drop p.length
       (List.range (cs'.length + 1)).any (fun n =>
         decide (lo ≤ n) && (cs'.take n).all (cmatch c) &&
         matchB rest (cs'.drop n))))

/-- Python `re.search(p, s) is not None`: try every start position, leftmost
first. -/
def research (p : List RItem) (s : String) : Bool :=
  let cs := s.toList
  (List.range (cs.length + 1)).any (fun i => matchB p (cs.drop i))

/-- Length of the preferred match of the pattern against a prefix of `cs`,
following Python's backtracking order: alternatives in written order,
repetitions greedy (longest first), optional groups preferring presence. -/
def matchEnd : List RItem → List Char → Option Nat
  | [], _ => some 0
  | .lit s :: rest, cs =>
    if s.toList.isPrefixOf cs then (matchEnd rest (cs.drop s.length)).map (· + s.length)
    else none
  | .alts ss :: rest, cs =>
    ss.findSome? (fun a =>
      if a.toList.isPrefixOf cs then (matchEnd rest (cs.drop a.length)).map (· + a.length)
      else none)
  | .reps c lo hi :: rest, cs =>
    let maxN := match hi with | none => cs.length | some h => min h cs.length
    ((List.range (maxN + 1)).reverse).findSome? (fun n =>
      if lo ≤ n ∧ (cs.take n).all (cmatch c) then (matchEnd rest (cs.drop n)).map (· + n)
      else none)
  | .grp p c lo :: rest, cs =>
    (if p.toList.isPrefixOf cs then
       (let cs' := cs.drop p.length
        ((List.range (cs'.length + 1)).reverse).findSome? (fun n =>
          if lo ≤ n ∧ (cs'.take n).all (cmatch c) then
            (matchEnd rest (cs'.drop n)).map (· + n + p.length)
          else none))
     else none) <|> matchEnd rest cs

/-- Python `re.search`: leftmost start position together with the preferred
match length there. -/
def refind (p : List RItem) (s : String) : Option (Nat × Nat) :=
  let cs := s.toList
  (List.range (cs.length + 1)).findSome? (fun i =>
    (matchEnd p (cs.drop i)).map (fun n => (i, n)))

/-- The substring matched by `re.search` (used where group 1 spans the whole
pattern). -/
def capture (p : List RItem) (s : String) : Option String :=
  (refind p s).map (fun q => String.mk ((s.toList.drop q.1).take q.2))

/-! ## The dataset at the collaborator boundary

One row per inspection-day-and-part record, with named defect-count cells.
The loader (out of scope) guarantees `defect_columns ⊆ columns`; the
analyzers re-check membership as the source does. -/

structure QRow where
  part_name : String
  inspected_qty : Nat
  total_rej_qty : Nat
  defects : List (String × Nat)
deriving DecidableEq

structure QDataset where
  columns : List String
  defect_columns : List String
  rows : List QRow
deriving DecidableEq

/-- Python `self.df[col].sum()` over a defect column (a missing cell counts
as 0). -/
def colSum (D : QDataset) (c : String) : Nat :=
  D.rows.foldl (fun a r => a + ((r.defects.lookup c).getD 0)) 0

/-! ## EnhancedSmartAnalyzer: semantic pattern tables

Verbatim from `setup_semantic_patterns` (enhanced_smart_analyzer.py,
lines 82-128). -/

def pie_keywords : List String := ["pie", "distribution", "proportion", "percentage", "share", "breakdown"]
def pie_phrases : List String := ["pie chart", "show distribution", "break down", "proportion of"]
def bar_keywords : List String := ["bar", "compare", "comparison", "ranking", "top", "highest", "lowest"]
def bar_phrases : List String := ["bar chart", "compare", "rank", "top 10", "highest", "lowest"]
def line_keywords : List String := ["line", "trend", "over time", "timeline", "progression", "change"]
def line_phrases : List String := ["line chart", "over time", "trend analysis", "time series"]
def scatter_keywords : List String := ["scatter", "correlation", "relationship", "versus", "vs"]
def scatter_phrases : List String := ["scatter plot", "correlation", "relationship between"]

def defects_keywords : List String := ["defect", "rejection", "reason", "cause", "problem", "issue", "fault"]
def defects_phrases : List String := ["rejection reasons", "defect types", "why rejected", "causes of"]
def parts_keywords : List String := ["part", "component", "item", "product", "piece"]
def parts_phrases : List String := ["part number", "which part", "part analysis", "component"]
def trends_keywords : List String := ["trend", "time", "monthly", "daily", "weekly", "over time", "progression"]
def trends_phrases : List String := ["over time", "trend analysis", "time series", "monthly trends"]
def performance_keywords : List String := ["performance", "quality", "efficiency", "rate", "ratio", "percentage"]
def performance_phrases : List String := ["rejection rate", "quality performance", "efficiency analysis"]

/-- Score of one axis label: +2 per matched keyword, +3 per matched phrase
(`determine_chart_type` / `determine_data_focus`, lines 323-377). -/
def scoreAxis (kws phrs : List String) (ql : String) : Nat :=
  2 * (kws.filter (fun k => isSub k ql)).length +
  3 * (phrs.filter (fun p => isSub p ql)).length

/-- Number of matched single keywords for a label (no weights, no phrases). -/
def rawKeywordCount (kws : List String) (ql : String) : Nat :=
  (kws.filter (fun k => isSub k ql)).length

/-- Chart-axis score of `pie`, including the contextual +5 bonus
(lines 343-344). -/
def chartScorePie (ql : String) : Nat :=
  scoreAxis pie_keywords pie_phrases ql +
  (if ["distribution", "proportion", "breakdown", "share"].any (fun w => isSub w ql) then 5 else 0)

/-- Chart-axis score of `bar`, including the contextual +5 bonus
(lines 346-347). -/
def chartScoreBar (ql : String) : Nat :=
  scoreAxis bar_keywords bar_phrases ql +
  (if ["compare", "top", "highest", "lowest", "rank"].any (fun w => isSub w ql) then 5 else 0)

/-- Chart-axis score of `line`, including the contextual +5 bonus
(lines 349-350). -/
def chartScoreLine (ql : String) : Nat :=
  scoreAxis line_keywords line_phrases ql +
  (if ["trend", "over time", "monthly", "progression"].any (fun w => isSub w ql) then 5 else 0)

/-- Chart-axis score of `scatter` (no bonus rule targets it). -/
def chartScoreScatter (ql : String) : Nat :=
  scoreAxis scatter_keywords scatter_phrases ql

/-- The chart-axis scores in the `chart_scores` dict's insertion order
(`self.chart_type_patterns` iteration: pie, bar, line, scatter). -/
def chartScores (ql : String) : List (String × Nat) :=
  [("pie", chartScorePie ql), ("bar", chartScoreBar ql),
   ("line", chartScoreLine ql), ("scatter", chartScoreScatter ql)]

/-- Python `max(d, key=d.get)`: the first key (in order) attaining the
maximum value; replacement only on a strictly greater value. -/
def argmaxFirst : List (String × Nat) → String
  | [] => "auto"
  | x :: xs => (xs.foldl (fun acc y => if y.2 > acc.2 then y else acc) x).1

/-- Maximum of the scores (Python `max(chart_scores.values())`). -/
def maxScore (l : List (String × Nat)) : Nat :=
  l.foldl (fun a y => max a y.2) 0

/-- `determine_chart_type` (lines 323-354): highest score wins, first key in
insertion order on ties, `auto` when every score is 0. -/
def determine_chart_type (ql : String) : String :=
  if maxScore (chartScores ql) > 0 then argmaxFirst (chartScores ql) else "auto"

/-- The data-focus scores in `focus_scores` insertion order
(defects, parts, trends, performance). -/
def focusScores (ql : String) : List (String × Nat) :=
  [("defects", scoreAxis defects_keywords defects_phrases ql),
   ("parts", scoreAxis parts_keywords parts_phrases ql),
   ("trends", scoreAxis trends_keywords trends_phrases ql),
   ("performance", scoreAxis performance_keywords performance_phrases ql)]

/-- `determine_data_focus` (lines 356-377). -/
def determine_data_focus (ql : String) : String :=
  if maxScore (focusScores ql) > 0 then argmaxFirst (focusScores ql) else "auto"

/-- The `question_types` dict of `determine_question_type` (lines 381-389),
in insertion order. -/
def question_type_rules : List (String × List String) :=
  [("comparison", ["compare", "versus", "vs", "difference", "better", "worse"]),
   ("ranking", ["top", "highest", "lowest", "best", "worst", "rank"]),
   ("quantity", ["how many", "count", "number", "total", "sum"]),
   ("analysis", ["analyze", "analysis", "insight", "pattern", "trend"]),
   ("visualization", ["chart", "graph", "plot", "draw", "show", "visualize"]),
   ("specific", ["which", "what", "when", "where", "who"]),
   ("temporal", ["when", "date", "time", "month", "day", "year"])]

/-- The `for q_type, keywords in question_types.items()` loop: return the
first category with a matching keyword. -/
def firstMatchType : List (String × List String) → String → String
  | [], _ => "general"
  | (c, kws) :: rest, ql =>
    if kws.any (fun k => isSub k ql) then c else firstMatchType rest ql

/-- `determine_question_type` (lines 379-395). -/
def determine_question_type (ql : String) : String :=
  firstMatchType question_type_rules ql

/-- The spec's description of the question-type axis, written from its words:
a first-match ordered rule list with precedence comparison → ranking →
quantity → analysis → visualization → specific → temporal; the first category
in that order whose trigger keywords appear anywhere in the question wins,
and no match yields `general`. -/
def questionTypeSpec (ql : String) : String :=
  let precedence : List (String × List String) :=
    [("comparison", ["compare", "versus", "vs", "difference", "better", "worse"]),
     ("ranking", ["top", "highest", "lowest", "best", "worst", "rank"]),
     ("quantity", ["how many", "count", "number", "total", "sum"]),
     ("analysis", ["analyze", "analysis", "insight", "pattern", "trend"]),
     ("visualization", ["chart", "graph", "plot", "draw", "show", "visualize"]),
     ("specific", ["which", "what", "when", "where", "who"]),
     ("temporal", ["when", "date", "time", "month", "day", "year"])]
  ((precedence.find? (fun p => p.2.any (fun k => isSub k ql))).map Prod.fst).getD "general"

/-- Leftmost match of
`top\s*(\d+)|first\s*(\d+)|(\d+)\s*most|(\d+)\s*highest` and the integer in
its one non-empty group (`analyze_question_semantically`, lines 302-310).
At each position the four alternatives are tried in written order; `\s*` and
`(\d+)` take maximal runs (their classes are disjoint from what follows, so
greedy matching is exact here). -/
def extract_specific_count (ql : String) : Option Nat :=
  let cs := ql.toList
  let afterLit : List Char → String → Option Nat := fun t pre =>
    if pre.toList.isPrefixOf t then
      let t1 := (t.drop pre.length).dropWhile isWs
      let d := t1.takeWhile Char.isDigit
      if d.isEmpty then none else some (strToNat (String.mk d))
    else none
  let beforeLit : List Char → String → Option Nat := fun t post =>
    let d := t.takeWhile Char.isDigit
    if d.isEmpty then none
    else
      let t1 := (t.drop d.length).dropWhile isWs
      if post.toList.isPrefixOf t1 then some (strToNat (String.mk d)) else none
  (List.range (cs.length + 1)).findSome? (fun i =>
    let t := cs.drop i
    (afterLit t "top") <|> (afterLit t "first") <|>
    (beforeLit t "most") <|> (beforeLit t "highest"))

/-- The enhanced analyzer's `conversation_context` dict (lines 34-40).  The
semantic-analysis pass never reads it; it is threaded to state that fact. -/
structure EnhancedContext where
  last_question : String
  last_answer : String
  current_focus : Option String
  mentioned_entities : List String
  chart_preferences : List (String × String)
deriving DecidableEq

/-- The analysis dict built by `analyze_question_semantically`
(lines 285-321); fields not derived from the question are omitted as they
stay at their initial constants. -/
structure EAnalysis where
  specific_count : Option Nat
  chart_type : String
  data_focus : String
  question_type : String
deriving DecidableEq

/-- `analyze_question_semantically` (lines 285-321): lower-case and strip the
question, then fill the analysis axes.  The context argument mirrors `self`;
the source reads only the fixed pattern tables from it, never the
conversation context. -/
def analyze_question_semantically (_ctx : EnhancedContext) (question : String) : EAnalysis :=
  let ql := pyStrip (lowerStr question)
  { specific_count := extract_specific_count ql
    chart_type := determine_chart_type ql
    data_focus := determine_data_focus ql
    question_type := determine_question_type ql }

/-- Context-free entry point used by the router embedding (justified by
theorem `C9_classification_deterministic`). -/
def analyzeQ (question : String) : EAnalysis :=
  analyze_question_semantically ⟨"", "", none, [], []⟩ question

/-! ## EnhancedSmartAnalyzer: routing -/

/-- The `rejection_patterns` list of `EnhancedSmartAnalyzer.answer_question`
(lines 684-691), pattern by pattern:
`top\s*(\d+)?\s*(rejection|defect|cause)`;
`(tell|show|list|give)\s*(me\s*)?(top|highest|most)\s*(\d+)?\s*(rejection|defect|reason)`;
`most\s*(frequent|common)\s*(rejection|defect)`;
`highest\s*(rejection|defect)`;
`(rejection|defect)\s*reason`;
`(why|what)\s*.*(reject|fail)`. -/
def rejection_patterns : List (List RItem) :=
  [[.lit "top", .reps .ws 0 none, .grp "" .digit 1, .reps .ws 0 none,
    .alts ["rejection", "defect", "cause"]],
   [.alts ["tell", "show", "list", "give"], .reps .ws 0 none, .grp "me" .ws 0,
    .alts ["top", "highest", "most"], .reps .ws 0 none, .grp "" .digit 1,
    .reps .ws 0 none, .alts ["rejection", "defect", "reason"]],
   [.lit "most", .reps .ws 0 none, .alts ["frequent", "common"],
    .reps .ws 0 none, .alts ["rejection", "defect"]],
   [.lit "highest", .reps .ws 0 none, .alts ["rejection", "defect"]],
   [.alts ["rejection", "defect"], .reps .ws 0 none, .lit "reason"],
   [.alts ["why", "what"], .reps .ws 0 none, .reps .dot 0 none,
    .alts ["reject", "fail"]]]

/-- The rejection-query detection and count extraction of
`EnhancedSmartAnalyzer.answer_question` (lines 693-710): `some c` when a
rejection pattern matches the lowercased question, where `c` is the first
digit run clamped by `min(max(n, 1), 20)`, defaulting to 5 when the question
holds no digits. -/
def rejection_query (ql : String) : Option Nat :=
  if rejection_patterns.any (fun p => research p ql) then
    some (match (digitRuns ql).head? with
          | some d => min (max (strToNat d) 1) 20
          | none => 5)
  else none

/-- Python `x or d` where `x` is an int-or-None: both `None` and `0` are
falsy. -/
def orTruthy (o : Option Nat) (d : Nat) : Nat :=
  match o with
  | some n => if n = 0 then d else n
  | none => d

/-- The handler the enhanced analyzer's routing selects for a question,
with the normalized parameters it passes. -/
inductive ERoute where
  | visualization
  | defectsChart
  | defectsText (count : Nat)
  | partsChart
  | partsHighest
  | partsGeneric
  | trendsChart
  | trendsText
  | rejectionTop (count : Option Nat)
  | rejectionQuery (count : Nat)
deriving DecidableEq

/-- The cue-word list of the outer dispatch
(`EnhancedSmartAnalyzer.answer_question`, line 680). -/
def nineVisWords : List String :=
  ["chart", "graph", "plot", "draw", "show", "visualize", "pie", "bar", "line"]

/-- The cue-word list of `generate_intelligent_response` (line 403). -/
def sixVisWords : List String :=
  ["chart", "graph", "plot", "draw", "show", "visualize"]

/-- `generate_intelligent_response` (lines 397-417) as a dispatch decision.
The final fallback passes `analysis.get('specific_count', 5)`: the analysis
dict always contains the key `'specific_count'` (initialized to `None`), so
`dict.get` returns the stored value and the written default 5 is dead code —
the embedded route records the stored `Option Nat` unchanged.
`handle_defect_analysis` / `handle_parts_analysis` / `handle_trend_analysis`
(lines 643-673) re-check `'chart' in q or 'graph' in q` and otherwise use
`analysis['specific_count'] or 5` (truthiness: `None` and `0` give 5) and
the `'highest'` probe. -/
def generateRoute (question : String) : ERoute :=
  let analysis := analyzeQ question
  let ql := lowerStr question
  if analysis.question_type = "visualization" ∨ sixVisWords.any (fun w => isSub w ql) then
    .visualization
  else if analysis.data_focus = "defects" then
    (if isSub "chart" ql ∨ isSub "graph" ql then .defectsChart
     else .defectsText (orTruthy analysis.specific_count 5))
  else if analysis.data_focus = "parts" then
    (if isSub "chart" ql ∨ isSub "graph" ql then .partsChart
     else if isSub "highest" ql then .partsHighest
     else .partsGeneric)
  else if analysis.data_focus = "trends" then
    (if isSub "chart" ql ∨ isSub "graph" ql then .trendsChart else .trendsText)
  else
    .rejectionTop analysis.specific_count

/-- `EnhancedSmartAnalyzer.answer_question` (lines 675-716) as a dispatch
decision: the nine visualization cue words are probed first by raw substring
containment; then the rejection patterns; everything else goes to
`generate_intelligent_response`. -/
def enhancedRoute (question : String) : ERoute :=
  let ql := lowerStr question
  if nineVisWords.any (fun w => isSub w ql) then generateRoute question
  else
    match rejection_query ql with
    | some c => .rejectionQuery c
    | none => generateRoute question

/-- The `defect_totals` dict of `get_top_rejection_reasons`
(lines 188-194): every defect column present in the table with a positive
total, in column order. -/
def defect_totals_list (D : QDataset) : List (String × Nat) :=
  D.defect_columns.filterMap (fun c =>
    if D.columns.contains c then
      (if 0 < colSum D c then some (c, colSum D c) else none)
    else none)

/-- Stable insertion of one entry into a list sorted by descending count
(ties keep earlier entries first, as Python's stable `sorted`). -/
def insertDescByCount (x : String × Nat) : List (String × Nat) → List (String × Nat)
  | [] => [x]
  | y :: ys => if x.2 > y.2 then x :: y :: ys else y :: insertDescByCount x ys

/-- Python `sorted(items, key=lambda x: x[1], reverse=True)`: stable
descending sort by count. -/
def sortDescByCount (l : List (String × Nat)) : List (String × Nat) :=
  l.foldl (fun acc x => insertDescByCount x acc) []

/-- The `sorted_defects` slice of `get_top_rejection_reasons` (line 200):
`sorted(...)[:count]`.  The count is `Option Nat` because the caller can pass
Python `None`, and `xs[:None]` is the whole list. -/
def top_rejection_selection (D : QDataset) (count : Option Nat) : List (String × Nat) :=
  match count with
  | none => sortDescByCount (defect_totals_list D)
  | some n => (sortDescByCount (defect_totals_list D)).take n

/-- A concrete dataset at the collaborator boundary: one part, six active
defect categories with distinct totals. -/
def D6 : QDataset :=
  { columns := ["Unnamed: 0", "Date", "Inspected Qty.", "Part Name", "Total Rej Qty.",
                "Burr", "Damage", "Toolmark", "Oversize", "Undersize", "Drilling"]
    defect_columns := ["Burr", "Damage", "Toolmark", "Oversize", "Undersize", "Drilling"]
    rows := [{ part_name := "PART-1001", inspected_qty := 1000, total_rej_qty := 210,
               defects := [("Burr", 60), ("Damage", 50), ("Toolmark", 40),
                           ("Oversize", 30), ("Undersize", 20), ("Drilling", 10)] }] }

/-! ## IntelligentDataAnalyzer: dialogue memory and reference resolution -/

/-- The `conversation_memory` dict (intelligent_data_analyzer.py,
lines 22-29).  Of the nested `context` dict only the key `current_part` is
ever used. -/
structure ConversationMemory where
  last_question : String
  last_answer : String
  mentioned_parts : List String
  mentioned_dates : List String
  mentioned_defects : List String
  context_current_part : Option String
deriving DecidableEq

/-- A fresh session's memory. -/
def freshMemory : ConversationMemory :=
  { last_question := "", last_answer := "", mentioned_parts := [],
    mentioned_dates := [], mentioned_defects := [], context_current_part := none }

/-- Python truthiness of `dict.get('current_part')`: a present, non-empty
string. -/
def truthyOptStr : Option String → Bool
  | some s => s ≠ ""
  | none => false

/-- Lines 174-175: append the extracted part to `mentioned_parts` unless it
is already present. -/
def addMentioned (l : List String) (e : String) : List String :=
  if e ∈ l then l else l ++ [e]

/-- The `context_words` list of `handle_contextual_questions` (line 159). -/
def context_words : List String :=
  ["why", "how", "what caused", "reason", "because", "this part", "that part",
   "why this", "why that"]

/-- `([A-Z][A-Z\s\d-]+\d+(?:-\d+)?)` — the first scan over `last_answer`
(line 163); group 1 spans the whole match. -/
def entity_scan_items : List RItem :=
  [.reps .upper 1 (some 1), .reps .entcls 1 none, .reps .digit 1 none,
   .grp "-" .digit 1]

def scanAnswerEntity (la : String) : Option String :=
  capture entity_scan_items la

/-- `([A-Z]{5,}\s*[A-Z]*\s*\d+(?:-\d+)?)` — the third, looser scan over
`last_answer` (line 165); group 1 spans the whole match. -/
def loose_scan_items : List RItem :=
  [.reps .upper 5 none, .reps .ws 0 none, .reps .upper 0 none,
   .reps .ws 0 none, .reps .digit 1 none, .grp "-" .digit 1]

def scanAnswerLoose (la : String) : Option String :=
  capture loose_scan_items la

/-- `part\s+(number|name)\s+([A-Z][A-Z\s\d-]+\d+(?:-\d+)?)` — the scan over
the (lower-cased) `last_question` (line 164), returning
(group 1 = the matched `number`/`name`, group 2 = the entity token).  The
`\s+` runs are followed by non-whitespace, so greedy maximal runs are exact
and the three segments compose without cross-boundary backtracking. -/
def scanQuestionPartPhrase (lq : String) : Option (String × String) :=
  let cs := lq.toList
  (List.range (cs.length + 1)).findSome? (fun i =>
    let t := cs.drop i
    if "part".toList.isPrefixOf t then
      let t1 := t.drop 4
      let w1 := (t1.takeWhile isWs).length
      if w1 = 0 then none
      else
        let t2 := t1.drop w1
        let g1? : Option String :=
          if "number".toList.isPrefixOf t2 then some "number"
          else if "name".toList.isPrefixOf t2 then some "name"
          else none
        match g1? with
        | none => none
        | some g1 =>
          let t3 := t2.drop g1.length
          let w2 := (t3.takeWhile isWs).length
          if w2 = 0 then none
          else
            let t4 := t3.drop w2
            (matchEnd entity_scan_items t4).map (fun n => (g1, String.mk (t4.take n)))
    else none)

/-- The `part_match` or-chain of `handle_contextual_questions`
(lines 163-168) together with the group selection
`group(1) if group(1) else group(2)`.  For the first and third patterns
group 1 is the whole match; for the second pattern group 1 is the literal
`number`/`name` (which is non-empty, so group 2 is never consulted). -/
def partMatchName (la lq : String) : Option String :=
  match scanAnswerEntity la with
  | some g => some g
  | none =>
    match scanQuestionPartPhrase lq with
    | some (g1, _) => some g1
    | none => scanAnswerLoose la

/-- The aggregation handlers the router delegates to.  They are external
collaborators (they read the table and produce narrative text); the router
embedding is parametric in them, and concrete instances are supplied where a
claim needs one. -/
structure IAHandlers where
  machineQ : String → String
  partQ : String → String
  dateQ : String → String
  defectQ : String → String
  quantityQ : String → String
  pctQ : String → String
  analysisQ : String → String
  generalQ : String → String
  partRejectionReasons : String → String
  partDetailed : String → String

/-- Which contextual sub-handler the extracted part is routed to
(the three conditionals of lines 177-184); `none` falls out of the block. -/
def hcqPick (H : IAHandlers) (pn ql : String) : Option String :=
  if isSub "why" ql ∧ (isSub "rejection" ql ∨ isSub "most" ql ∨ isSub "this part" ql) then
    some (H.partRejectionReasons pn)
  else if isSub "how" ql ∧ isSub "many" ql then
    some (H.partDetailed pn)
  else if isSub "what caused" ql ∨ isSub "reason" ql then
    some (H.partRejectionReasons pn)
  else none

/-- The first block of `handle_contextual_questions` (lines 161-184): when a
context cue word is present and a previous answer exists, resolve a part
from `last_answer`/`last_question`, record it in the context slot and the
mentioned list, and pick a sub-handler. -/
def hcqStep1 (H : IAHandlers) (m : ConversationMemory) (ql lq la : String) :
    Option String × ConversationMemory :=
  if context_words.any (fun w => isSub w ql) ∧ la ≠ "" then
    match partMatchName la lq with
    | some pn0 =>
      if pn0 ≠ "" then
        let pn := pyStrip pn0
        (hcqPick H pn ql,
         { m with context_current_part := some pn,
                  mentioned_parts := addMentioned m.mentioned_parts pn })
      else (none, m)
    | none => (none, m)
  else (none, m)

/-- The pronoun branch of lines 186-193: `this part`/`that part` reuse the
stored focus entity; the defensive `if not part_name` message is kept as in
the source (it is unreachable because the slot is checked for truthiness
first). -/
def hcqPronounPick (H : IAHandlers) (pn ql : String) : Option String :=
  if pn = "" then
    some "❌ **Error:** Unable to determine the part in question. Please specify clearly."
  else if isSub "rejection" ql ∨ isSub "defect" ql then
    some (H.partRejectionReasons pn)
  else none

def hcqPronoun (H : IAHandlers) (m' : ConversationMemory) (ql : String) :
    Option String × ConversationMemory :=
  if (isSub "this part" ql ∨ isSub "that part" ql) ∧ truthyOptStr m'.context_current_part then
    (hcqPronounPick H (m'.context_current_part.getD "") ql, m')
  else (none, m')

/-- `handle_contextual_questions` (lines 152-195): the reference resolver.
Returns the contextual response (or `none`) and the possibly mutated memory.
`last_question` has already been overwritten with the current question by
`answer_question` before this runs, exactly as in the source, and is
lower-cased before the scan. -/
def handle_contextual_questions (H : IAHandlers) (m : ConversationMemory)
    (question : String) : Option String × ConversationMemory :=
  let ql := lowerStr question
  match hcqStep1 H m ql (lowerStr m.last_question) m.last_answer with
  | (some r, m') => (some r, m')
  | (none, m') => hcqPronoun H m' ql

/-- The `if/elif` dispatch chain of `answer_question` (lines 106-150), run
after the contextual check.  Only the machine, part and general branches
record `last_answer`; the remaining branches return directly. -/
def iaDispatch (H : IAHandlers) (m : ConversationMemory) (question ql : String) :
    String × ConversationMemory :=
  if isSub "machine" ql then
    let r := H.machineQ question
    (r, { m with last_answer := r })
  else if (isSub "part" ql ∧ (isSub "highest" ql ∨ isSub "lowest" ql ∨ isSub "rejection" ql)) ∨
          isSub "which part" ql ∨ (isSub "part number" ql ∧ ¬ isSub "total" ql) then
    let r := H.partQ question
    (r, { m with last_answer := r })
  else if (["date", "day", "month", "year", "when"].any (fun w => isSub w ql)) ∧
          ¬ isSub "part" ql then
    (H.dateQ question, m)
  else if (["reason", "defect", "burr", "damage", "toolmark"].any (fun w => isSub w ql)) ∧
          ¬ isSub "part" ql then
    (H.defectQ question, m)
  else if (["total", "count", "number", "quantity", "how many"].any (fun w => isSub w ql)) ∧
          ¬ isSub "part" ql then
    (H.quantityQ question, m)
  else if (["date", "day"].any (fun w => isSub w ql)) ∧
          (["highest", "lowest"].any (fun w => isSub w ql)) then
    (H.dateQ question, m)
  else if (["reason", "defect", "frequent"].any (fun w => isSub w ql)) ∧
          (["highest", "lowest", "most"].any (fun w => isSub w ql)) then
    (H.defectQ question, m)
  else if ["ratio", "percentage", "rate"].any (fun w => isSub w ql) then
    (H.pctQ question, m)
  else if ["trend", "analysis", "chart", "graph"].any (fun w => isSub w ql) then
    (H.analysisQ question, m)
  else
    let r := H.generalQ question
    (r, { m with last_answer := r })

/-- `IntelligentDataAnalyzer.answer_question` (lines 90-150): overwrite
`last_question` with the current question, run the contextual resolver
(whose truthy response is returned and recorded), otherwise walk the keyword
dispatch chain. -/
def iaTurn (H : IAHandlers) (m0 : ConversationMemory) (question : String) :
    String × ConversationMemory :=
  let ql := lowerStr question
  let m := { m0 with last_question := question }
  match handle_contextual_questions H m question with
  | (some r, m1) =>
    if r ≠ "" then (r, { m1 with last_answer := r })
    else iaDispatch H m1 question ql
  | (none, m1) => iaDispatch H m1 question ql

/-! ## Concrete aggregation handlers used by the claims -/

/-- `re.search(r'["\']([^"\']+)["\']|(\d{8,})', question)` of
`handle_part_questions` (line 304): either a quoted token (group 1) or a run
of at least eight digits (group 2); leftmost position, alternatives in
order.  A quote is written by code point (34 and 39). -/
def partNumMatch (question : String) : Option String :=
  let isQuote : Char → Bool := fun c => c.toNat = 34 || c.toNat = 39
  let cs := question.toList
  (List.range (cs.length + 1)).findSome? (fun i =>
    let t := cs.drop i
    let quoted : Option String :=
      match t with
      | [] => none
      | c :: t1 =>
        if isQuote c then
          let body := t1.takeWhile (fun d => ¬ isQuote d)
          if body.isEmpty then none
          else
            match t1.drop body.length with
            | d :: _ => if isQuote d then some (String.mk body) else none
            | [] => none
        else none
    let digits : Option String :=
      let d := t.takeWhile Char.isDigit
      if 8 ≤ d.length then some (String.mk d) else none
    quoted <|> digits)

/-- Stable insertion into a list sorted by ascending name (pandas `groupby`
sorts group keys). -/
def insertAscByName (x : String × Nat) : List (String × Nat) → List (String × Nat)
  | [] => [x]
  | y :: ys => if x.1 < y.1 then x :: y :: ys else y :: insertAscByName x ys

/-- `self.df.groupby('Part Name')['Total Rej Qty.'].sum()`: per-part totals
with keys in ascending order. -/
def groupPartTotals (D : QDataset) : List (String × Nat) :=
  let names := D.rows.foldl (fun acc r =>
    if r.part_name ∈ acc then acc else acc ++ [r.part_name]) []
  (names.map (fun n =>
    (n, D.rows.foldl (fun a r => if r.part_name = n then a + r.total_rej_qty else a) 0))).foldl
    (fun acc x => insertAscByName x acc) []

/-- `part_data['Total Rej Qty.'].sum()` over the rows whose part name
contains `pn` case-insensitively (`str.contains(part_num, case=False)`). -/
def partContainsTotal (D : QDataset) (pn : String) : Option Nat :=
  let sel := D.rows.filter (fun r => isSub (lowerStr pn) (lowerStr r.part_name))
  if sel.isEmpty then none
  else some (sel.foldl (fun a r => a + r.total_rej_qty) 0)

/-- `handle_part_questions` (lines 301-321). -/
def handle_part_questions (D : QDataset) (question : String) : String :=
  match partNumMatch question with
  | some pn =>
    (match partContainsTotal D pn with
     | some t =>
       "✅ **Answer:** Part containing \x27" ++ pn ++ "\x27 has " ++ toString t ++
       " total rejections."
     | none =>
       "❌ **Answer:** Part number \x27" ++ pn ++ "\x27 not found in the data.")
  | none =>
    if isSub "highest" (lowerStr question) then
      match (groupPartTotals D).foldl
          (fun acc y => match acc with
                        | none => some y
                        | some x => if y.2 > x.2 then some y else some x) none with
      | some top =>
        "✅ **Answer:** " ++ top.1 ++ " with " ++ toString top.2 ++ " total rejections."
      | none => "❓ **Answer:** Please specify the part number or provide more details about the part."
    else
      "❓ **Answer:** Please specify the part number or provide more details about the part."

/-- `handle_ratio_questions` (lines 506-514).  The `'rejection ratio'`
branch renders a floating-point percentage by an external aggregation and is
taken as a parameter; it is not reached by the inputs considered here. -/
def handle_ratio_questions (ratioBranchAnswer : String) (question : String) : String :=
  if isSub "rejection ratio" (lowerStr question) then ratioBranchAnswer
  else "📊 **Answer:** Ratio calculation available. Please specify what ratio you need."

/-- The `metadata` dict fields consumed by `handle_general_questions`
(lines 71-88 build it; dates kept as year-month-day triples). -/
structure Metadata where
  total_records : Nat
  date_start : Nat × Nat × Nat
  date_end : Nat × Nat × Nat
  unique_parts : Nat
  total_rejections : Nat
  months_available : List String
  defect_types : List String
deriving DecidableEq

/-- `Timestamp.strftime('%Y-%m-%d')`. -/
def fmtDate (d : Nat × Nat × Nat) : String :=
  let pad2 : Nat → String := fun n => if n < 10 then "0" ++ toString n else toString n
  toString d.1 ++ "-" ++ pad2 d.2.1 ++ "-" ++ pad2 d.2.2

/-- Python `', '.join(xs)`. -/
def joinComma : List String → String
  | [] => ""
  | [x] => x
  | x :: y :: t => x ++ ", " ++ joinComma (y :: t)

/-- `handle_general_questions` (lines 1001-1018): the fixed data-summary
template. -/
def handle_general_questions (md : Metadata) (_question : String) : String :=
  "\n📋 **Data Summary:**\n" ++
  "• Total records: " ++ toString md.total_records ++ "\n" ++
  "• Date range: " ++ fmtDate md.date_start ++ " to " ++ fmtDate md.date_end ++ "\n" ++
  "• Unique parts: " ++ toString md.unique_parts ++ "\n" ++
  "• Total rejections: " ++ toString md.total_rejections ++ "\n" ++
  "• Available months: " ++ joinComma md.months_available ++ "\n" ++
  "• Defect types tracked: " ++ toString md.defect_types.length ++ "\n" ++
  "\n❓ **Ask me about:**\n" ++
  "- Specific dates, parts, or defect types\n" ++
  "- Trends and analysis\n" ++
  "- Quantities and ratios\n" ++
  "- Comparisons between parts or time periods\n" ++
  "- Charts and visualizations (bar, pie, line, trend)\n"

/-- Metadata of the concrete dataset `D6`. -/
def metaD6 : Metadata :=
  { total_records := 1, date_start := (2024, 3, 15), date_end := (2024, 3, 15),
    unique_parts := 1, total_rejections := 210, months_available := ["2024-03"],
    defect_types := D6.defect_columns }

/-- Handler instantiation that tags each delegation with the handler's name,
making the selected route visible in the returned text. -/
def tagHandlers : IAHandlers :=
  { machineQ := fun q => "MACHINE:" ++ q
    partQ := fun q => "PART:" ++ q
    dateQ := fun q => "DATE:" ++ q
    defectQ := fun q => "DEFECT:" ++ q
    quantityQ := fun q => "QUANTITY:" ++ q
    pctQ := fun q => "PCT:" ++ q
    analysisQ := fun q => "ANALYSIS:" ++ q
    generalQ := fun q => "GENERAL:" ++ q
    partRejectionReasons := fun e => "PARTREASONS:" ++ e
    partDetailed := fun e => "PARTDETAIL:" ++ e }

/-- The handlers used in the two-turn context scenario: the part handler and
the general handler are the concrete translations over `D6`; delegations to
the by-entity rejection-reason handler stay tagged so the dispatch target is
visible. -/
def scenarioHandlers : IAHandlers :=
  { tagHandlers with
    partQ := handle_part_questions D6
    generalQ := handle_general_questions metaD6
    pctQ := handle_ratio_questions "" }

/-! ## Helper lemmas on the dialogue memory -/

theorem addMentioned_append (l : List String) (e : String) :
    ∃ t, addMentioned l e = l ++ t := by
  unfold addMentioned
  split
  · exact ⟨[], by simp⟩
  · exact ⟨[e], rfl⟩

theorem hcqStep1_memory (H : IAHandlers) (m : ConversationMemory) (ql lq la : String) :
    (hcqStep1 H m ql lq la).2 = m ∨
    ∃ pn, (hcqStep1 H m ql lq la).2 =
      { m with context_current_part := some pn,
               mentioned_parts := addMentioned m.mentioned_parts pn } := by
  unfold hcqStep1
  split
  · split
    · split
      · exact Or.inr ⟨_, rfl⟩
      · exact Or.inl rfl
    · exact Or.inl rfl
  · exact Or.inl rfl

theorem hcqPronoun_memory (H : IAHandlers) (m' : ConversationMemory) (ql : String) :
    (hcqPronoun H m' ql).2 = m' := by
  unfold hcqPronoun
  split <;> rfl

theorem hcq_memory (H : IAHandlers) (m : ConversationMemory) (question : String) :
    (handle_contextual_questions H m question).2 = m ∨
    ∃ pn, (handle_contextual_questions H m question).2 =
      { m with context_current_part := some pn,
               mentioned_parts := addMentioned m.mentioned_parts pn } := by
  have hm := hcqStep1_memory H m (lowerStr question) (lowerStr m.last_question) m.last_answer
  unfold handle_contextual_questions
  dsimp only
  rcases h : hcqStep1 H m (lowerStr question) (lowerStr m.last_question) m.last_answer with ⟨o, m1⟩
  rw [h] at hm
  cases o <;> simpa [hcqPronoun_memory] using hm

theorem hcq_fields (H : IAHandlers) (m : ConversationMemory) (question : String) :
    (handle_contextual_questions H m question).2.last_question = m.last_question ∧
    (handle_contextual_questions H m question).2.last_answer = m.last_answer ∧
    ∃ t, (handle_contextual_questions H m question).2.mentioned_parts =
           m.mentioned_parts ++ t := by
  rcases hcq_memory H m question with h | ⟨pn, h⟩ <;> rw [h]
  · exact ⟨rfl, rfl, [], by simp⟩
  · exact ⟨rfl, rfl, addMentioned_append m.mentioned_parts pn⟩

theorem iaDispatch_fields (H : IAHandlers) (m : ConversationMemory) (question ql : String) :
    (iaDispatch H m question ql).2.last_question = m.last_question ∧
    (iaDispatch H m question ql).2.mentioned_parts = m.mentioned_parts ∧
    ((iaDispatch H m question ql).2.last_answer = m.last_answer ∨
     (iaDispatch H m question ql).2.last_answer = (iaDispatch H m question ql).1) := by
  unfold iaDispatch
  repeat' split
  all_goals
    first
      | exact ⟨rfl, rfl, Or.inr rfl⟩
      | exact ⟨rfl, rfl, Or.inl rfl⟩

/-- `firstMatchType` (the source's for-loop) agrees with a `find?`-style
first-match description over any rule list. -/
theorem firstMatchType_eq_find (L : List (String × List String)) (ql : String) :
    firstMatchType L ql =
      ((L.find? (fun p => p.2.any (fun k => isSub k ql))).map Prod.fst).getD "general" := by
  induction L with
  | nil => rfl
  | cons x rest ih =>
    rcases x with ⟨c, kws⟩
    by_cases h : kws.any (fun k => isSub k ql) = true
    · simp [firstMatchType, List.find?, h]
    · simp only [Bool.not_eq_true] at h
      simp [firstMatchType, List.find?, h, ih]

/-! ## Claim theorems -/

set_option maxRecDepth 20000

/-- Claim C9: classification is deterministic — the semantic-analysis pass of
`analyze_question_semantically` reads only the question and the fixed pattern
tables, never the conversation context, so two runs on the same question
with different (or differently mutated) contexts return the same analysis
(question type, data focus, chart type and requested count). -/
theorem C9_classification_deterministic (c1 c2 : EnhancedContext) (q : String) :
    analyze_question_semantically c1 q = analyze_question_semantically c2 q := rfl

/-- Claim C4: `determine_question_type` decides the question-type axis by a
first-match ordered rule list with precedence comparison → ranking →
quantity → analysis → visualization → specific → temporal: the first
category in that order with a trigger keyword occurring anywhere in the
lowercased question wins, and a question matching no category yields
`general`. -/
theorem C4_question_type_precedence (ql : String) :
    determine_question_type ql = questionTypeSpec ql := by
  unfold determine_question_type questionTypeSpec
  rw [firstMatchType_eq_find]
  rfl

/-- Claim C3: whenever `answer_question` recognizes a rejection-reason query,
the count handed to the aggregation handler lies in [1, 20]; concretely,
"top 47 rejection reasons" is clamped to 20 and "top 0 rejection reasons"
to 1. -/
theorem C3_count_clamping :
    (∀ (q : String) (c : Nat), rejection_query q = some c → 1 ≤ c ∧ c ≤ 20) ∧
    enhancedRoute "top 47 rejection reasons" = ERoute.rejectionQuery 20 ∧
    enhancedRoute "top 0 rejection reasons" = ERoute.rejectionQuery 1 := by
  refine ⟨?_, by decide, by decide⟩
  intro q c h
  unfold rejection_query at h
  split at h
  · cases hd : (digitRuns q).head? with
    | none => rw [hd] at h; simp only [Option.some.injEq] at h; omega
    | some d => rw [hd] at h; simp only [Option.some.injEq] at h; omega
  · exact absurd h (by simp)

/-- Witness for C3 at the concrete question "top 47 rejection reasons". -/
theorem C3_count_clamping_witness :
    rejection_query "top 47 rejection reasons" = some 20 ∧ 1 ≤ 20 ∧ 20 ≤ 20 :=
  ⟨by decide, C3_count_clamping.1 "top 47 rejection reasons" 20 (by decide)⟩

/-- Claim C1 (code bug): the question "hello there" matches no routing rule
and is delegated to the rejection-reason handler, but the count handed over
is Python `None` (the analysis dict always holds the key
`'specific_count'`, so `dict.get`'s written default 5 is dead), and slicing
by `None` enumerates every active defect category — six on the dataset `D6`
— instead of the claimed fixed five. -/
theorem C1_fallback_count_code_bug :
    enhancedRoute "hello there" = ERoute.rejectionTop none ∧
    top_rejection_selection D6 none =
      [("Burr", 60), ("Damage", 50), ("Toolmark", 40), ("Oversize", 30),
       ("Undersize", 20), ("Drilling", 10)] ∧
    (top_rejection_selection D6 none).length = 6 ∧
    (top_rejection_selection D6 (some 5)).length = 5 ∧
    defect_totals_list D6 ≠ [] := by
  exact ⟨by decide, by decide, by decide, by decide, by decide⟩

/-- Counterexample to claim C5 as stated: "distribution top 10" matches the
pie keyword `distribution` and the bar keyword `top` with equal raw keyword
counts on the chart axis, yet the classifier returns `bar` (the bar phrase
`top 10` adds +3). -/
theorem C5_counterexample_raw_tie_prefers_bar :
    isSub "distribution" "distribution top 10" = true ∧
    isSub "top" "distribution top 10" = true ∧
    rawKeywordCount pie_keywords "distribution top 10" =
      rawKeywordCount bar_keywords "distribution top 10" ∧
    determine_chart_type "distribution top 10" = "bar" ∧
    determine_chart_type "distribution top 10" ≠ "pie" := by
  exact ⟨by decide, by decide, by decide, by decide, by decide⟩

/-- Claim C5 (amended): when the total chart-axis scores of `pie` and `bar`
are equal (keywords + phrases + bonus, as on "distribution top") and neither
`line` nor `scatter` scores higher, the classifier deterministically selects
`pie` — ties break by the fixed label order pie, bar, line, scatter. -/
theorem C5_tie_break_amended (ql : String)
    (hd : isSub "distribution" ql = true)
    (_ht : isSub "top" ql = true)
    (heq : chartScorePie ql = chartScoreBar ql)
    (hl : chartScoreLine ql ≤ chartScorePie ql)
    (hs : chartScoreScatter ql ≤ chartScorePie ql) :
    determine_chart_type ql = "pie" := by
  have h5 : 5 ≤ chartScorePie ql := by
    unfold chartScorePie
    rw [if_pos (by simp [hd])]
    omega
  have hmax : maxScore (chartScores ql) = chartScorePie ql := by
    dsimp only [maxScore, chartScores, List.foldl]
    omega
  have hb : ¬ (chartScoreBar ql > chartScorePie ql) := by omega
  have hl' : ¬ (chartScoreLine ql > chartScorePie ql) := by omega
  have hs' : ¬ (chartScoreScatter ql > chartScorePie ql) := by omega
  unfold determine_chart_type
  rw [hmax, if_pos (by omega)]
  dsimp only [argmaxFirst, chartScores, List.foldl]
  rw [if_neg hb]
  dsimp only
  rw [if_neg hl']
  dsimp only
  rw [if_neg hs']

/-- Witness for the amended C5 at the concrete question "distribution top"
(pie and bar both score 7; pie wins the tie). -/
theorem C5_tie_break_amended_witness :
    chartScorePie "distribution top" = chartScoreBar "distribution top" ∧
    determine_chart_type "distribution top" = "pie" :=
  ⟨by decide,
   C5_tie_break_amended "distribution top" (by decide) (by decide) (by decide)
     (by decide) (by decide)⟩

/-- Counterexample to claim C2 as stated: the turn "percentage please" is
routed to the ratio handler, which returns its fixed fallback text, yet the
memory still holds the previous turn's answer "a0" — `last_answer` is left
stale, not updated with the turn's answer. -/
theorem C2_counterexample_stale_last_answer :
    (iaTurn scenarioHandlers
       { freshMemory with last_question := "q0", last_answer := "a0" }
       "percentage please").1 =
      "📊 **Answer:** Ratio calculation available. Please specify what ratio you need." ∧
    (iaTurn scenarioHandlers
       { freshMemory with last_question := "q0", last_answer := "a0" }
       "percentage please").2.last_answer = "a0" ∧
    ("a0" : String) ≠
      "📊 **Answer:** Ratio calculation available. Please specify what ratio you need." := by
  exact ⟨by decide, by decide, by decide⟩

/-- Claim C2 (amended): every processed turn updates `last_question` with
the current question, and `last_answer` is never corrupted — after any turn
it is either the previous value (the date, defect, quantity, ratio and trend
branches return without recording) or exactly the turn's answer text (the
contextual, machine, part and general branches record it). -/
theorem C2_context_update_amended (H : IAHandlers) (m0 : ConversationMemory)
    (question : String) :
    (iaTurn H m0 question).2.last_question = question ∧
    ((iaTurn H m0 question).2.last_answer = m0.last_answer ∨
     (iaTurn H m0 question).2.last_answer = (iaTurn H m0 question).1) := by
  unfold iaTurn
  dsimp only
  have hf := hcq_fields H { m0 with last_question := question } question
  rcases h : handle_contextual_questions H { m0 with last_question := question } question
    with ⟨o, m1⟩
  rw [h] at hf
  have hd := iaDispatch_fields H m1 question (lowerStr question)
  cases o with
  | none =>
    dsimp only
    refine ⟨by rw [hd.1]; exact hf.1, ?_⟩
    rcases hd.2.2 with h2 | h2
    · exact Or.inl (by rw [h2]; exact hf.2.1)
    · exact Or.inr h2
  | some r =>
    dsimp only
    split
    · exact ⟨hf.1, Or.inr rfl⟩
    · refine ⟨by rw [hd.1]; exact hf.1, ?_⟩
      rcases hd.2.2 with h2 | h2
      · exact Or.inl (by rw [h2]; exact hf.2.1)
      · exact Or.inr h2

/-- Claim C8: the mentioned-entities list is append-only across any turn,
an already-present entity is not re-appended (and keeps its position), and
adding the same entity in three consecutive turns leaves exactly one
instance of it, in first-seen position. -/
theorem C8_mentioned_entities_append_once :
    (∀ (H : IAHandlers) (m0 : ConversationMemory) (question : String),
       ∃ t, (iaTurn H m0 question).2.mentioned_parts = m0.mentioned_parts ++ t) ∧
    (∀ (l : List String) (e : String), e ∈ l → addMentioned l e = l) ∧
    (∀ (l : List String) (e : String), e ∉ l →
       addMentioned (addMentioned (addMentioned l e) e) e = l ++ [e]) := by
  refine ⟨?_, ?_, ?_⟩
  · intro H m0 question
    unfold iaTurn
    dsimp only
    have hf := hcq_fields H { m0 with last_question := question } question
    rcases h : handle_contextual_questions H { m0 with last_question := question } question
      with ⟨o, m1⟩
    rw [h] at hf
    obtain ⟨t, ht⟩ := hf.2.2
    have hd := iaDispatch_fields H m1 question (lowerStr question)
    cases o with
    | none => exact ⟨t, by dsimp only; rw [hd.2.1]; exact ht⟩
    | some r =>
      dsimp only
      split
      · exact ⟨t, ht⟩
      · exact ⟨t, by rw [hd.2.1]; exact ht⟩
  · intro l e h
    unfold addMentioned
    rw [if_pos h]
  · intro l e h
    have h1 : addMentioned l e = l ++ [e] := by unfold addMentioned; rw [if_neg h]
    have h2 : addMentioned (l ++ [e]) e = l ++ [e] := by
      unfold addMentioned; rw [if_pos (by simp)]
    rw [h1, h2, h2]

/-- Witness for C8: concrete applications of the two conditional parts. -/
theorem C8_mentioned_entities_append_once_witness :
    ("PART-1001" ∈ ["PART-1001", "PART-2002"] ∧
     addMentioned ["PART-1001", "PART-2002"] "PART-1001" = ["PART-1001", "PART-2002"]) ∧
    ("PART-3003" ∉ ["PART-1001"] ∧
     addMentioned (addMentioned (addMentioned ["PART-1001"] "PART-3003") "PART-3003")
       "PART-3003" = ["PART-1001", "PART-3003"]) :=
  ⟨⟨by decide, C8_mentioned_entities_append_once.2.1 _ _ (by decide)⟩,
   ⟨by decide, C8_mentioned_entities_append_once.2.2 _ _ (by decide)⟩⟩

/-- Claim C6: the reference resolver tries its candidate sources in a fixed
first-success-wins order — (1) entity-shaped scan of `last_answer`,
(2) `part number/name <value>` phrasing in the stored question, (3) the
looser entity-shaped scan of `last_answer` — and in the two-turn scenario
(turn 1 "which part has the highest rejections?" answered with PART-1001,
turn 2 "why does this part fail so much?") it resolves PART-1001 and the
router delegates to the rejection-reason-by-entity handler, not the generic
top-N handler. -/
theorem C6_reference_resolution_order :
    (∀ (la lq s : String), scanAnswerEntity la = some s →
       partMatchName la lq = some s) ∧
    (∀ (la lq : String) (p : String × String), scanAnswerEntity la = none →
       scanQuestionPartPhrase lq = some p → partMatchName la lq = some p.1) ∧
    (∀ la lq : String, scanAnswerEntity la = none →
       scanQuestionPartPhrase lq = none → partMatchName la lq = scanAnswerLoose la) ∧
    ((iaTurn scenarioHandlers freshMemory
        "which part has the highest rejections?").2.last_answer =
       "✅ **Answer:** PART-1001 with 210 total rejections." ∧
     (iaTurn scenarioHandlers
        (iaTurn scenarioHandlers freshMemory "which part has the highest rejections?").2
        "why does this part fail so much?").1 = "PARTREASONS:PART-1001" ∧
     (iaTurn scenarioHandlers
        (iaTurn scenarioHandlers freshMemory "which part has the highest rejections?").2
        "why does this part fail so much?").2.context_current_part = some "PART-1001" ∧
     (iaTurn scenarioHandlers
        (iaTurn scenarioHandlers freshMemory "which part has the highest rejections?").2
        "why does this part fail so much?").2.mentioned_parts = ["PART-1001"]) := by
  refine ⟨?_, ?_, ?_, by decide, by decide, by decide, by decide⟩
  · intro la lq s h
    unfold partMatchName
    rw [h]
  · intro la lq p h1 h2
    unfold partMatchName
    rw [h1, h2]
  · intro la lq h1 h2
    unfold partMatchName
    rw [h1, h2]

/-- Witness for C6 on the concrete answer string of the scenario. -/
theorem C6_reference_resolution_order_witness :
    scanAnswerEntity "✅ **Answer:** PART-1001 with 210 total rejections." =
      some "PART-1001" ∧
    partMatchName "✅ **Answer:** PART-1001 with 210 total rejections." "" =
      some "PART-1001" :=
  ⟨by decide,
   C6_reference_resolution_order.1 "✅ **Answer:** PART-1001 with 210 total rejections."
     "" "PART-1001" (by decide)⟩

/-- Counterexample to claim C7 as stated: on a fresh session the
context-dependent question "why?" leaves the resolver empty-handed
(`none`, no entity recorded) but the turn is answered with the general
data-summary template, not with any clarification that the referent cannot
be determined. -/
theorem C7_counterexample_no_clarification :
    (handle_contextual_questions scenarioHandlers
       { freshMemory with last_question := "why?" } "why?").1 = none ∧
    (iaTurn scenarioHandlers freshMemory "why?").1 =
      handle_general_questions metaD6 "why?" ∧
    isSub "Unable to determine" (iaTurn scenarioHandlers freshMemory "why?").1 = false ∧
    isSub "cannot determine" (iaTurn scenarioHandlers freshMemory "why?").1 = false ∧
    (iaTurn scenarioHandlers freshMemory "why?").2.context_current_part = none := by
  exact ⟨by decide, rfl, by decide, by decide, by decide⟩

/-- Claim C7 (amended): a context-dependent question ("why?", "this part",
"that part") against an empty dialogue context resolves no entity, records
no entity, never crashes, and falls through to the general-summary handler
for any handler implementation — but no explicit clarification request is
issued (the resolver's "cannot determine" message is unreachable). -/
theorem C7_empty_context_amended (H : IAHandlers) :
    ((handle_contextual_questions H { freshMemory with last_question := "why?" }
        "why?").1 = none ∧
     (iaTurn H freshMemory "why?").1 = H.generalQ "why?" ∧
     (iaTurn H freshMemory "why?").2.context_current_part = none ∧
     (iaTurn H freshMemory "why?").2.mentioned_parts = []) ∧
    ((handle_contextual_questions H { freshMemory with last_question := "this part" }
        "this part").1 = none ∧
     (iaTurn H freshMemory "this part").1 = H.generalQ "this part" ∧
     (iaTurn H freshMemory "this part").2.context_current_part = none ∧
     (iaTurn H freshMemory "this part").2.mentioned_parts = []) ∧
    ((handle_contextual_questions H { freshMemory with last_question := "that part" }
        "that part").1 = none ∧
     (iaTurn H freshMemory "that part").1 = H.generalQ "that part" ∧
     (iaTurn H freshMemory "that part").2.context_current_part = none ∧
     (iaTurn H freshMemory "that part").2.mentioned_parts = []) :=
  ⟨⟨rfl, rfl, rfl, rfl⟩, ⟨rfl, rfl, rfl, rfl⟩, ⟨rfl, rfl, rfl, rfl⟩⟩

/-- Counterexample to claim C10 as stated: "did sales decline" contains the
cue word `line` as a raw substring, yet the enhanced analyzer does not route
it to the charting path — it falls through to the rejection-reason summary
(count `None`). -/
theorem C10_counterexample_line_substring :
    isSub "line" (lowerStr "did sales decline") = true ∧
    enhancedRoute "did sales decline" = ERoute.rejectionTop none ∧
    enhancedRoute "did sales decline" ≠ ERoute.visualization := by
  exact ⟨by decide, by decide, by decide⟩

/-- Claim C10 (amended): raw substring containment governs the routing, but
in two layers — any question containing one of the six generic cue words
(chart, graph, plot, draw, show, visualize) as a raw substring, e.g. `show`
inside "showcase", always reaches the charting path, while `pie`/`bar`/
`line` as substrings only divert the turn into the intelligent-response
generator, which may fall through to non-chart handlers. -/
theorem C10_substring_routing_amended :
    (∀ q : String, sixVisWords.any (fun w => isSub w (lowerStr q)) = true →
       enhancedRoute q = ERoute.visualization) ∧
    enhancedRoute "showcase the data" = ERoute.visualization := by
  refine ⟨?_, by decide⟩
  intro q h
  have h9 : nineVisWords.any (fun w => isSub w (lowerStr q)) = true := by
    simp only [sixVisWords, List.any_cons, List.any_nil, Bool.or_eq_true] at h
    simp only [nineVisWords, List.any_cons, List.any_nil, Bool.or_eq_true]
    tauto
  unfold enhancedRoute
  rw [if_pos h9]
  unfold generateRoute
  rw [if_pos (Or.inr h)]

/-- Witness for the amended C10 at the concrete question "showcase the
data". -/
theorem C10_substring_routing_amended_witness :
    sixVisWords.any (fun w => isSub w (lowerStr "showcase the data")) = true ∧
    enhancedRoute "showcase the data" = ERoute.visualization :=
  ⟨by decide, C10_substring_routing_amended.1 "showcase the data" (by decide)⟩

end QA
